import Mathlib

/-!
Shallow embedding of the GDB Remote Serial Protocol session engine from
`src/stub/core_impl.rs` (the `gdbstub` crate's core): the per-packet state
machine `GdbStubImpl::handle_packet`, the command dispatcher
`GdbStubImpl::handle_command`, and the target-error-to-protocol-error
translation layer `TargetResultExt::handle_error`.

Modelling conventions:
* Machine integers (`u8`, `i32`, `usize`) are `Nat`/`Int`; where Rust
  truncates (`as u8`) the model takes the value modulo 256 explicitly.
* The byte-oriented `Connection` is modelled as the ordered trace of outbound
  events it receives: a raw acknowledgement byte (`+`, written by
  `conn.write(b'+')`) or one flushed response frame carrying its payload
  bytes.  Packet framing/checksums are a collaborator's concern and are
  abstracted into the `frame` event.  Connection writes are modelled as
  infallible (a `Vec`-backed connection never fails), so the
  `ConnectionWrite`/`ConnectionRead` error variants never arise in the model.
* Fallible Rust `Result` values are `Except`.
-/

/-- A byte on the wire, in `[0, 255]`. -/
abbrev Byte := Nat

/-- ASCII bytes of a string literal (all protocol strings here are ASCII). -/
def strBytes (s : String) : List Byte := s.data.map Char.toNat

/-- One outbound event on the connection: either the single raw
acknowledgement byte `+`, or one flushed response frame identified by its
payload bytes (the framing around the payload is a collaborator's concern). -/
inductive OutEvent : Type
  | ack : OutEvent
  | frame (payload : List Byte) : OutEvent
deriving DecidableEq, Repr

/-- Translation of `crate::target::TargetError<E>`: how a target operation can
fail.  `Errno` carries a `u8` in Rust, so its values lie in `[0, 255]`; `Io`
carries a `std::io::Error`, of which this code consumes only
`raw_os_error() : Option<i32>`, so the model carries that value directly. -/
inductive TargetError (E : Type) : Type
  | Fatal (e : E) : TargetError E
  | NonFatal : TargetError E
  | Errno (code : Nat) : TargetError E
  | Io (raw_os_error : Option Int) : TargetError E
deriving DecidableEq, Repr

/-- Translation of the variants of `crate::stub::GdbStubError` that the code
under `src/` constructs or matches: `ClientSentNack`, `TargetError(e)` (the
target-declared-fatal channel) and the `NonFatalError(u8)` control-flow
"error" produced by the error translation layer. -/
inductive GdbStubError (E : Type) : Type
  | ClientSentNack : GdbStubError E
  | TargetError (e : E) : GdbStubError E
  | NonFatalError (code : Nat) : GdbStubError E
deriving DecidableEq, Repr

/-- Translation of `TargetResultExt::handle_error`
(src/stub/core_impl.rs:54-69): collapses a target operation's result into
either a pass-through success, an unrecoverable session error (`Fatal`), or
the recoverable `NonFatalError` protocol code.  `Io`'s
`e.raw_os_error().unwrap_or(121) as u8` is the value (default 121) truncated
to its low 8 bits, i.e. reduced modulo 256. -/
def handle_error {E V : Type} :
    Except (TargetError E) V → Except (GdbStubError E) V
  | .ok v => .ok v
  | .error (.Fatal e) => .error (.TargetError e)
  | .error .NonFatal => .error (.NonFatalError 121)
  | .error (.Errno code) => .error (.NonFatalError code)
  | .error (.Io e) => .error (.NonFatalError ((e.getD 121) % 256).toNat)

/-- Translation of `DisconnectReason` (src/stub/core_impl.rs:74-83).  `Signal`
is a thin wrapper around a `u8`, modelled as `Nat`. -/
inductive DisconnectReason : Type
  | TargetExited (code : Nat) : DisconnectReason
  | TargetTerminated (signal : Nat) : DisconnectReason
  | Disconnect : DisconnectReason
  | Kill : DisconnectReason
deriving DecidableEq, Repr

/-- Translation of `State` (src/stub/core_impl.rs:85-90), the driver-facing
outcome of one `handle_packet` call. -/
inductive State : Type
  | Pump : State
  | DeferredStopReason : State
  | CtrlCInterrupt : State
  | Disconnect (reason : DisconnectReason) : State
deriving DecidableEq, Repr

/-- Translation of `HandlerStatus` (src/stub/core_impl.rs:101-106), the
outcome an extension handler reports for one command. -/
inductive HandlerStatus : Type
  | Handled : HandlerStatus
  | NeedsOk : HandlerStatus
  | DeferredStopReason : HandlerStatus
  | Disconnect (reason : DisconnectReason) : HandlerStatus
deriving DecidableEq, Repr

/-- Translation of `SpecificIdKind`: the thread-or-all selector used by
`current_resume_tid`.  Thread ids (`Tid`, a `NonZeroUsize`) are `Nat`. -/
inductive SpecificIdKind : Type
  | All : SpecificIdKind
  | WithId (tid : Nat) : SpecificIdKind
deriving DecidableEq, Repr

/-- Translation of `crate::SINGLE_THREAD_TID` (`NonZeroUsize::new(1)`). -/
def SINGLE_THREAD_TID : Nat := 1

/-- Translation of the session-persistent fields of `GdbStubImpl`
(src/stub/core_impl.rs:92-99); the two `PhantomData` fields carry no data and
are dropped. -/
structure GdbStubImpl : Type where
  current_mem_tid : Nat
  current_resume_tid : SpecificIdKind
  no_ack_mode : Bool
deriving DecidableEq, Repr

/-- Translation of `GdbStubImpl::new` (src/stub/core_impl.rs:109-126). -/
def GdbStubImpl.new : GdbStubImpl :=
  { current_mem_tid := SINGLE_THREAD_TID
    current_resume_tid := .WithId SINGLE_THREAD_TID
    no_ack_mode := false }

/-- Modelled from the spec: the target capability queries this core consumes
(§6): extended-mode support presence (`support_extended_mode().is_some()`),
resume-operation support presence (`base_ops().resume_ops().is_some()`), and
the boolean resume-stub opt-in (`use_resume_stub()`).  The `Target` trait's
operations themselves live in collaborator modules outside `src/`. -/
structure Target : Type where
  supportExtendedMode : Bool
  supportResumeOps : Bool
  useResumeStub : Bool
deriving DecidableEq, Repr

/-- Lowercase ASCII hex digit for a nibble (`'0'` = 48, `'a'` = 97). -/
def hexDigitByte (n : Nat) : Byte := if n < 10 then 48 + n else 87 + n

/-- Modelled from the spec: `ResponseWriter::write_num` on the `u8` error
code, per §6 "`\"E\"` + exactly two hex digits" and the §8 scenario
`Errno(14) → \"E0e\"`: two lowercase hex digits. The `ResponseWriter` itself
is a collaborator outside `src/`. -/
def write_num (code : Nat) : List Byte :=
  [hexDigitByte (code / 16 % 16), hexDigitByte (code % 16)]

/-- Modelled from the spec: `ResponseWriter::write_hex_buf`, per §6
"`\"O\"` + hex-encoded byte string": each byte becomes two lowercase hex
digits. -/
def write_hex_buf (buf : List Byte) : List Byte :=
  (buf.map fun b => [hexDigitByte (b / 16 % 16), hexDigitByte (b % 16)]).flatten

/-- The diagnostic text flushed by the unknown-resume stub
(src/stub/core_impl.rs:226). -/
def resumeStubMsg : List Byte :=
  strBytes "target has not implemented `support_resume()`\n"

/-- Modelled from the spec: one extension-handler invocation.  The fourteen
extension handler bodies (`handle_base`, `handle_stop_resume`, ...) are
collaborator modules outside `src/`; per the handler contract (§4.3) a
handler writes only through the response writer's framing primitives (never
raw bytes or flushes on the connection), returns exactly one
handled-status-or-error, and mutates only the session fields it
protocol-owns, with `no_ack_mode` a sticky boolean that can only be switched
on (§3).  A single invocation is therefore abstracted by its observable
effects: the bytes it appends to the response writer, its result, the new
thread selectors, and whether it requests no-ack mode. -/
structure HandlerCall (E : Type) : Type where
  result : Except (GdbStubError E) HandlerStatus
  written : List Byte
  newMemTid : Nat
  newResumeTid : SpecificIdKind
  ackModeRequest : Bool

/-- Session-state update performed by one extension-handler invocation:
thread selectors are overwritten by their protocol-owning handlers, and
`no_ack_mode`, being sticky (§3), is the old value or-ed with the handler's
request. -/
def HandlerCall.apply {E : Type} (h : HandlerCall E) (st : GdbStubImpl) :
    GdbStubImpl :=
  { current_mem_tid := h.newMemTid
    current_resume_tid := h.newResumeTid
    no_ack_mode := st.no_ack_mode || h.ackModeRequest }

/-- Translation of `Command` (`crate::protocol::commands::Command`): the
fifteen dispatched command families plus the catch-all `Unknown` carrying the
raw command bytes.  Each family's decoded sub-command is consumed only by its
extension handler (outside `src/`), so a family's payload is abstracted to
the `HandlerCall` describing that handler invocation. -/
inductive Command (E : Type) : Type
  | Base (cmd : HandlerCall E) : Command E
  | Resume (cmd : HandlerCall E) : Command E
  | XUpcasePacket (cmd : HandlerCall E) : Command E
  | SingleRegisterAccess (cmd : HandlerCall E) : Command E
  | Breakpoints (cmd : HandlerCall E) : Command E
  | CatchSyscalls (cmd : HandlerCall E) : Command E
  | ExtendedMode (cmd : HandlerCall E) : Command E
  | MonitorCmd (cmd : HandlerCall E) : Command E
  | SectionOffsets (cmd : HandlerCall E) : Command E
  | ReverseCont (cmd : HandlerCall E) : Command E
  | ReverseStep (cmd : HandlerCall E) : Command E
  | MemoryMap (cmd : HandlerCall E) : Command E
  | HostIo (cmd : HandlerCall E) : Command E
  | ExecFile (cmd : HandlerCall E) : Command E
  | Auxv (cmd : HandlerCall E) : Command E
  | Unknown (raw : List Byte) : Command E

/-- Translation of `Packet` (`crate::protocol::Packet`). -/
inductive Packet (E : Type) : Type
  | Ack : Packet E
  | Nack : Packet E
  | Interrupt : Packet E
  | Command (command : Command E) : Packet E

/-- Translation of the closure in the unknown-command arm
(src/stub/core_impl.rs:216): `matches!(c, b'c' | b'C' | b's' | b'S')`
(`'c'` = 99, `'C'` = 67, `'s'` = 115, `'S'` = 83). -/
def isResumePrefix (c : Byte) : Bool :=
  c == 99 || c == 67 || c == 115 || c == 83

/-- Translation of `GdbStubImpl::handle_command`
(src/stub/core_impl.rs:183-238).  Returns the handler's
result, the bytes appended to the (still unflushed) response writer, the
frames the command arm itself flushed mid-cycle (only the unknown-resume
console-output frame does this), and the updated session state.  Dispatched
families run their `HandlerCall`; `Unknown(raw)` runs the in-source
resume-stub logic: when the target has no resume ops but opted into the stub
and the raw command's first byte is a resume prefix, it flushes a
console-output frame `"O" + hex(diagnostic)` on the connection and writes
`"S05"` into the response writer; in every case it is `Handled`. -/
def handle_command {E : Type} (target : Target) (st : GdbStubImpl)
    (cmd : Command E) :
    Except (GdbStubError E) HandlerStatus × List Byte × List OutEvent ×
      GdbStubImpl :=
  match cmd with
  | .Base h | .Resume h | .XUpcasePacket h | .SingleRegisterAccess h
  | .Breakpoints h | .CatchSyscalls h | .ExtendedMode h | .MonitorCmd h
  | .SectionOffsets h | .ReverseCont h | .ReverseStep h | .MemoryMap h
  | .HostIo h | .ExecFile h | .Auxv h =>
      (h.result, h.written, [], h.apply st)
  | .Unknown raw =>
      if !target.supportResumeOps && target.useResumeStub then
        let is_resume_pkt := (raw.head?.map isResumePrefix).getD false
        if is_resume_pkt then
          (.ok .Handled, strBytes "S05",
            [.frame (strBytes "O" ++ write_hex_buf resumeStubMsg)], st)
        else
          (.ok .Handled, [], [], st)
      else
        (.ok .Handled, [], [], st)

/-- The acknowledgement events written at the start of one `Command` cycle
(src/stub/core_impl.rs:142-145): one raw `+` byte unless `no_ack_mode` is
set. -/
def ackEvents (st : GdbStubImpl) : List OutEvent :=
  if st.no_ack_mode then [] else [.ack]

/-- Translation of the tail of the `Packet::Command` arm
(src/stub/core_impl.rs:166-178): flush the response writer's buffer as one
frame unless the recorded disconnect reason is `Kill` and the target has no
extended-mode support, then map the recorded reason to the returned
`State`. -/
def finishResponse {E : Type} (target : Target) (st : GdbStubImpl)
    (pre : List OutEvent) (buf : List Byte)
    (disconnect_reason : Option DisconnectReason) :
    Except (GdbStubError E) State × GdbStubImpl × List OutEvent :=
  let is_kill := disconnect_reason = some DisconnectReason.Kill
  let flushEv : List OutEvent :=
    if target.supportExtendedMode = false ∧ is_kill then [] else [.frame buf]
  let state : State :=
    match disconnect_reason with
    | some reason => .Disconnect reason
    | none => .Pump
  (.ok state, st, pre ++ flushEv)

/-- Translation of `GdbStubImpl::handle_packet`
(src/stub/core_impl.rs:128-181).  Returns the `Result<State, _>` together
with the session state after the call and the ordered trace of outbound
events written to the connection during the call. -/
def handle_packet {E : Type} (target : Target) (st : GdbStubImpl)
    (packet : Packet E) :
    Except (GdbStubError E) State × GdbStubImpl × List OutEvent :=
  match packet with
  | .Ack => (.ok .Pump, st, [])
  | .Nack => (.error .ClientSentNack, st, [])
  | .Interrupt => (.ok .CtrlCInterrupt, st, [])
  | .Command command =>
    let ack := ackEvents st
    match handle_command target st command with
    | (result, buf, mid, st') =>
      match result with
      | .ok .Handled => finishResponse target st' (ack ++ mid) buf none
      | .ok .NeedsOk =>
          finishResponse target st' (ack ++ mid) (buf ++ strBytes "OK") none
      | .ok .DeferredStopReason => (.ok .DeferredStopReason, st', ack ++ mid)
      | .ok (.Disconnect reason) =>
          finishResponse target st' (ack ++ mid) buf (some reason)
      | .error (.NonFatalError code) =>
          finishResponse target st' (ack ++ mid)
            (buf ++ strBytes "E" ++ write_num code) none
      | .error e => (.error e, st', ack ++ mid)

/-- Normal completion of one dispatch: the handler outcomes that fall through
to the flush step of `handle_packet` (everything except the
`DeferredStopReason` early return and a propagated fatal error). -/
def completesNormally {E : Type} :
    Except (GdbStubError E) HandlerStatus → Bool
  | .ok .Handled => true
  | .ok .NeedsOk => true
  | .ok .DeferredStopReason => false
  | .ok (.Disconnect _) => true
  | .error (.NonFatalError _) => true
  | .error _ => false

/-- The disconnect reason `handle_packet` records from a dispatch outcome
(src/stub/core_impl.rs:148-164): only `HandlerStatus::Disconnect` records
one. -/
def recordedReason {E : Type} :
    Except (GdbStubError E) HandlerStatus → Option DisconnectReason
  | .ok (.Disconnect reason) => some reason
  | _ => none

/-- Whether a connection trace ends in a flushed response frame: the mark of
the final flush step of `handle_packet`. -/
def lastIsFrame (tr : List OutEvent) : Bool :=
  match tr.getLast? with
  | some (.frame _) => true
  | _ => false

lemma ack_not_mem_mid {E : Type} (target : Target) (st : GdbStubImpl)
    (cmd : Command E) :
    OutEvent.ack ∉ (handle_command target st cmd).2.2.1 := by
  cases cmd <;>
    first
    | (simp [handle_command]; done)
    | (simp only [handle_command]
       split_ifs <;> simp)

lemma no_ack_sticky {E : Type} (target : Target) (st : GdbStubImpl)
    (cmd : Command E) (h : st.no_ack_mode = true) :
    ((handle_command target st cmd).2.2.2).no_ack_mode = true := by
  cases cmd <;>
    first
    | (simp [handle_command, HandlerCall.apply, h]; done)
    | (simp only [handle_command]
       split_ifs <;> simp [h])

lemma handle_command_deferred_mid {E : Type} (target : Target)
    (st : GdbStubImpl) (cmd : Command E)
    (hd : (handle_command target st cmd).1 = .ok .DeferredStopReason) :
    (handle_command target st cmd).2.2.1 = [] := by
  cases cmd <;>
    first
    | (simp [handle_command]; done)
    | (simp only [handle_command] at hd ⊢
       split_ifs at hd ⊢ <;> simp_all)

lemma handle_packet_command_state {E : Type} (target : Target)
    (st : GdbStubImpl) (cmd : Command E) :
    (handle_packet target st (.Command cmd)).2.1 =
      (handle_command target st cmd).2.2.2 := by
  rcases heq : handle_command target st cmd with ⟨result, buf, mid, st'⟩
  rcases result with e | s
  · rcases e <;> simp [handle_packet, heq, finishResponse]
  · rcases s <;> simp [handle_packet, heq, finishResponse]

lemma command_trace_shape {E : Type} (target : Target) (st : GdbStubImpl)
    (cmd : Command E) :
    ∃ rest, (handle_packet target st (.Command cmd)).2.2 =
        ackEvents st ++ rest ∧ OutEvent.ack ∉ rest := by
  have hmid := ack_not_mem_mid target st cmd
  rcases heq : handle_command target st cmd with ⟨result, buf, mid, st'⟩
  rw [heq] at hmid
  simp only at hmid
  rcases result with e | s
  · rcases e <;>
      simp [handle_packet, heq, finishResponse, List.append_assoc] <;>
      simp [hmid]
  · rcases s <;>
      simp [handle_packet, heq, finishResponse, List.append_assoc] <;>
      simp [hmid]

lemma lastIsFrame_concat (l : List OutEvent) (b : List Byte) :
    lastIsFrame (l ++ [OutEvent.frame b]) = true := by
  simp [lastIsFrame, List.getLast?_concat]

lemma lastIsFrame_append_frame (l₁ l₂ : List OutEvent) (b : List Byte) :
    lastIsFrame (l₁ ++ (l₂ ++ [OutEvent.frame b])) = true := by
  rw [← List.append_assoc]
  exact lastIsFrame_concat _ b

lemma handle_command_mid_empty_or_handled {E : Type} (target : Target)
    (st : GdbStubImpl) (cmd : Command E) :
    (handle_command target st cmd).2.2.1 = [] ∨
      (handle_command target st cmd).1 = .ok .Handled := by
  cases cmd <;>
    first
    | (left; simp [handle_command]; done)
    | (right; simp only [handle_command]; split_ifs <;> rfl)

/-- C3: for every Command packet whose handler returns
`HandlerStatus::DeferredStopReason`, `handle_packet` returns
`State::DeferredStopReason` immediately and the response is not flushed
during that call: the connection receives nothing besides the handshake ack
(`ackEvents`) in that cycle. -/
theorem C3_deferred_stop_reason_suppresses_flush {E : Type} (target : Target)
    (st : GdbStubImpl) (cmd : Command E)
    (hd : (handle_command target st cmd).1 = .ok .DeferredStopReason) :
    handle_packet target st (.Command cmd) =
      (.ok .DeferredStopReason, (handle_command target st cmd).2.2.2,
        ackEvents st) := by
  have hm := handle_command_deferred_mid target st cmd hd
  rcases heq : handle_command target st cmd with ⟨result, buf, mid, st'⟩
  rw [heq] at hd hm
  simp only at hd hm
  subst hd; subst hm
  simp [handle_packet, heq]

theorem C3_witness :
    handle_packet (E := Unit) ⟨true, true, false⟩ GdbStubImpl.new
        (.Command (.Resume ⟨.ok .DeferredStopReason, [], 1, .WithId 1, false⟩)) =
      (.ok .DeferredStopReason,
        (handle_command (E := Unit) ⟨true, true, false⟩ GdbStubImpl.new
            (.Resume ⟨.ok .DeferredStopReason, [], 1, .WithId 1, false⟩)).2.2.2,
        ackEvents GdbStubImpl.new) :=
  C3_deferred_stop_reason_suppresses_flush ⟨true, true, false⟩ GdbStubImpl.new
    (.Resume ⟨.ok .DeferredStopReason, [], 1, .WithId 1, false⟩) rfl

/-- C7: a `Nack` packet makes `handle_packet` fail immediately with the
client-sent-nack protocol violation, with no bytes written to the connection
and the session state untouched (no retransmission recovery). -/
theorem C7_nack_fails_with_no_bytes {E : Type} (target : Target)
    (st : GdbStubImpl) :
    handle_packet (E := E) target st .Nack =
      (.error .ClientSentNack, st, []) := rfl

/-- C8: an `Ack` packet yields `State::Pump` with no side effect (no bytes
written, session state unchanged), and an `Interrupt` packet yields
`State::CtrlCInterrupt` with no response written. -/
theorem C8_ack_pump_interrupt_ctrlc {E : Type} (target : Target)
    (st : GdbStubImpl) :
    handle_packet (E := E) target st .Ack = (.ok .Pump, st, [])
    ∧ handle_packet (E := E) target st .Interrupt =
        (.ok .CtrlCInterrupt, st, []) :=
  ⟨rfl, rfl⟩

/-- C9: `no_ack_mode` never reverts to false within a session: whenever
`handle_packet` starts from a state with `no_ack_mode = true`, the state
after the call still has `no_ack_mode = true`. -/
theorem C9_no_ack_mode_never_reverts {E : Type} (target : Target)
    (st : GdbStubImpl) (packet : Packet E) (h : st.no_ack_mode = true) :
    (handle_packet target st packet).2.1.no_ack_mode = true := by
  cases packet with
  | Ack => exact h
  | Nack => exact h
  | Interrupt => exact h
  | Command cmd =>
      rw [handle_packet_command_state]
      exact no_ack_sticky target st cmd h

theorem C9_witness :
    (handle_packet (E := Unit) ⟨true, true, false⟩
        ⟨1, SpecificIdKind.All, true⟩
        (.Command (.Base ⟨.ok .Handled, [], 2, SpecificIdKind.All,
          false⟩))).2.1.no_ack_mode = true :=
  C9_no_ack_mode_never_reverts ⟨true, true, false⟩ ⟨1, SpecificIdKind.All, true⟩
    (.Command (.Base ⟨.ok .Handled, [], 2, SpecificIdKind.All, false⟩)) rfl

/-- C10: the `Unknown` command with an empty raw payload is total and never
fires the resume-stub diagnostic, whatever the target's capabilities: the
first-byte check treats the absent first byte (`[].head? = none`) as
not-a-resume-packet, so the outcome is `Handled` with nothing written into
the response writer, no mid-cycle frame, and the cycle just flushes the empty
response. -/
theorem C10_empty_unknown_command_safe {E : Type} (target : Target)
    (st : GdbStubImpl) :
    handle_command (E := E) target st (.Unknown []) = (.ok .Handled, [], [], st)
    ∧ (([] : List Byte).head?.map isResumePrefix).getD false = false
    ∧ (handle_packet (E := E) target st (.Command (.Unknown []))).2.2 =
        ackEvents st ++ [.frame []] := by
  have h1 : handle_command (E := E) target st (.Unknown []) =
      (.ok .Handled, [], [], st) := by
    simp only [handle_command]
    split_ifs <;> simp_all
  refine ⟨h1, rfl, ?_⟩
  simp [handle_packet, h1, finishResponse]

/-- C1: the error translation layer passes a success through unchanged and
turns `Fatal(e)` into the unrecoverable session error carrying `e`,
`NonFatal` into protocol code 121, and `Errno(n)` into code `n` verbatim; at
the packet level a fatal translation makes `handle_packet` return that error
with no error response written (only the handshake ack on the wire), while a
recoverable code `n` makes it flush exactly the `"E"` + two-hex-digit
response and return `State::Pump` — code 121 yields payload `"E79"` and code
14 yields payload `"E0e"`. -/
theorem C1_error_translation_layer {E V : Type} (target : Target)
    (st : GdbStubImpl) (cmd : Command E) (st' : GdbStubImpl) :
    (∀ v : V, handle_error (E := E) (.ok v) = .ok v)
    ∧ (∀ e : E, handle_error (V := V) (.error (.Fatal e)) =
        .error (.TargetError e))
    ∧ (handle_error (E := E) (V := V) (.error .NonFatal) =
        .error (.NonFatalError 121))
    ∧ (∀ n : Nat, handle_error (E := E) (V := V) (.error (.Errno n)) =
        .error (.NonFatalError n))
    ∧ (∀ e : E,
        handle_command target st cmd = (.error (.TargetError e), [], [], st') →
        handle_packet target st (.Command cmd) =
          (.error (.TargetError e), st', ackEvents st))
    ∧ (∀ n : Nat,
        handle_command target st cmd =
            (.error (.NonFatalError n), [], [], st') →
        handle_packet target st (.Command cmd) =
          (.ok .Pump, st',
            ackEvents st ++ [.frame (strBytes "E" ++ write_num n)]))
    ∧ strBytes "E" ++ write_num 121 = strBytes "E79"
    ∧ strBytes "E" ++ write_num 14 = strBytes "E0e" := by
  refine ⟨fun v => rfl, fun e => rfl, rfl, fun n => rfl, ?_, ?_, by decide,
    by decide⟩
  · intro e h
    simp [handle_packet, h]
  · intro n h
    simp [handle_packet, h, finishResponse]

theorem C1_witness :
    handle_packet (E := Nat) ⟨true, true, false⟩ GdbStubImpl.new
        (.Command (.Base ⟨.error (.NonFatalError 14), [], 1, .WithId 1,
          false⟩)) =
      (.ok .Pump, GdbStubImpl.new,
        ackEvents GdbStubImpl.new ++
          [.frame (strBytes "E" ++ write_num 14)])
    ∧ strBytes "E" ++ write_num 14 = strBytes "E0e" :=
  ⟨(C1_error_translation_layer (V := Nat) ⟨true, true, false⟩ GdbStubImpl.new
      (.Base ⟨.error (.NonFatalError 14), [], 1, .WithId 1, false⟩)
      GdbStubImpl.new).2.2.2.2.2.1 14 rfl,
    (C1_error_translation_layer (E := Nat) (V := Nat) ⟨true, true, false⟩
      GdbStubImpl.new (.Unknown []) GdbStubImpl.new).2.2.2.2.2.2.2⟩

/-- C2: the ack discipline of `handle_packet` on `Command` packets: with
`no_ack_mode = false` the trace carries exactly one ack byte and it comes
before any response bytes (it is the head of the trace); with
`no_ack_mode = true` zero ack bytes are written, and `no_ack_mode` stays true
after the call, so the same holds for every subsequent packet of the
session. -/
theorem C2_ack_discipline {E : Type} (target : Target) (st : GdbStubImpl)
    (cmd : Command E) :
    ((handle_packet target st (.Command cmd)).2.2.count OutEvent.ack =
        if st.no_ack_mode = true then 0 else 1)
    ∧ (st.no_ack_mode = false →
        (handle_packet target st (.Command cmd)).2.2.head? =
          some OutEvent.ack)
    ∧ (st.no_ack_mode = true →
        (handle_packet target st (.Command cmd)).2.1.no_ack_mode = true) := by
  obtain ⟨rest, htr, hmem⟩ := command_trace_shape target st cmd
  refine ⟨?_, ?_, ?_⟩
  · rw [htr]
    rcases hb : st.no_ack_mode <;>
      simp [ackEvents, hb, List.count_append, List.count_eq_zero.mpr hmem]
  · intro hb
    rw [htr]
    simp [ackEvents, hb]
  · intro hb
    rw [handle_packet_command_state]
    exact no_ack_sticky target st cmd hb

theorem C2_witness :
    ((handle_packet (E := Unit) ⟨true, true, false⟩ GdbStubImpl.new
        (.Command (.Base ⟨.ok .Handled, [], 1, .WithId 1, false⟩))).2.2.count
          OutEvent.ack = 1)
    ∧ ((handle_packet (E := Unit) ⟨true, true, false⟩ GdbStubImpl.new
        (.Command (.Base ⟨.ok .Handled, [], 1, .WithId 1,
          false⟩))).2.2.head? = some OutEvent.ack) := by
  have h := C2_ack_discipline (E := Unit) ⟨true, true, false⟩ GdbStubImpl.new
    (.Base ⟨.ok .Handled, [], 1, .WithId 1, false⟩)
  exact ⟨by simpa [GdbStubImpl.new] using h.1, h.2.1 rfl⟩

/-- C4 (amended): for every Command packet whose dispatch completes normally
(the handler outcome is `Handled`, `NeedsOk`, `Disconnect`, or a recoverable
`NonFatalError` code — i.e. everything except the `DeferredStopReason` early
return and a propagated fatal error), the final response frame is flushed if
and only if it is not the case that the recorded disconnect reason is `Kill`
and the target reports no extended-mode support. -/
theorem C4_kill_no_extended_mode_skips_flush {E : Type} (target : Target)
    (st : GdbStubImpl) (cmd : Command E)
    (hn : completesNormally (handle_command target st cmd).1 = true) :
    lastIsFrame (handle_packet target st (.Command cmd)).2.2 = true ↔
      ¬(recordedReason (handle_command target st cmd).1 =
          some DisconnectReason.Kill ∧
        target.supportExtendedMode = false) := by
  have hmid := handle_command_mid_empty_or_handled target st cmd
  rcases heq : handle_command target st cmd with ⟨result, buf, mid, st'⟩
  rw [heq] at hn hmid
  simp only at hn hmid
  rcases result with e | s
  · rcases e with _ | e | n
    · simp [completesNormally] at hn
    · simp [completesNormally] at hn
    · simp [handle_packet, heq, finishResponse, recordedReason,
        lastIsFrame_concat, lastIsFrame_append_frame]
  · rcases s with _ | _ | _ | r
    · simp [handle_packet, heq, finishResponse, recordedReason,
        lastIsFrame_concat, lastIsFrame_append_frame]
    · simp [handle_packet, heq, finishResponse, recordedReason,
        lastIsFrame_concat, lastIsFrame_append_frame]
    · simp [completesNormally] at hn
    · rcases hmid with hmid | hmid
      · subst hmid
        by_cases hk : r = DisconnectReason.Kill ∧
            target.supportExtendedMode = false
        · obtain ⟨hr, he⟩ := hk
          subst hr
          rcases hb : st.no_ack_mode <;>
            simp [handle_packet, heq, finishResponse, recordedReason, he, hb,
              lastIsFrame, ackEvents]
        · have hc : ¬(target.supportExtendedMode = false ∧
              (some r : Option DisconnectReason) =
                some DisconnectReason.Kill) := by
            intro hcon
            exact hk ⟨by simpa using hcon.2, hcon.1⟩
          simp only [handle_packet, heq, finishResponse, recordedReason]
          rw [if_neg hc]
          simp [lastIsFrame_concat, lastIsFrame_append_frame]
          intro hr
          by_contra hfalse
          exact hk ⟨hr, by simpa using hfalse⟩
      · exact absurd hmid (by simp)

theorem C4_witness :
    lastIsFrame (handle_packet (E := Unit) ⟨true, true, false⟩ GdbStubImpl.new
        (.Command (.Base ⟨.ok (.Disconnect .Kill), [], 1, .WithId 1,
          false⟩))).2.2 = true :=
  (C4_kill_no_extended_mode_skips_flush (E := Unit) ⟨true, true, false⟩
      GdbStubImpl.new
      (.Base ⟨.ok (.Disconnect .Kill), [], 1, .WithId 1, false⟩) rfl).mpr
    (by simp [handle_command, recordedReason])

theorem C4_counterexample :
    handle_packet (E := Unit) ⟨true, true, false⟩ GdbStubImpl.new
        (.Command (.Base ⟨.ok .DeferredStopReason, [], 1, .WithId 1,
          false⟩)) =
      (.ok .DeferredStopReason, GdbStubImpl.new, [OutEvent.ack])
    ∧ lastIsFrame [OutEvent.ack] = false
    ∧ recordedReason (handle_command (E := Unit) ⟨true, true, false⟩
        GdbStubImpl.new
        (.Base ⟨.ok .DeferredStopReason, [], 1, .WithId 1, false⟩)).1 =
      none :=
  ⟨rfl, rfl, rfl⟩

/-- C5: an `Unknown` command whose first raw byte is a resume-request prefix
(`'c'`, `'C'`, `'s'`, `'S'`), against a target with no resume-operation
support that opted into the resume stub, with `no_ack_mode` off, produces on
the connection exactly one ack, then one flushed console-output frame `"O"` +
hex-encoded diagnostic, then a flushed `"S05"` frame; the handler outcome is
`Handled` and the state is `State::Pump`.  And whenever the stub opt-in is
absent, resume ops are supported, or the first byte is not a resume prefix,
the dispatch writes nothing (no diagnostic, no `"S05"`) and is still
`Handled`. -/
theorem C5_unknown_resume_stub {E : Type} (target : Target) (st : GdbStubImpl)
    (raw : List Byte)
    (hres : target.supportResumeOps = false)
    (hstub : target.useResumeStub = true)
    (hack : st.no_ack_mode = false)
    (hpkt : (raw.head?.map isResumePrefix).getD false = true) :
    (handle_packet (E := E) target st (.Command (.Unknown raw)) =
      (.ok .Pump, st,
        [.ack, .frame (strBytes "O" ++ write_hex_buf resumeStubMsg),
          .frame (strBytes "S05")]))
    ∧ (handle_command (E := E) target st (.Unknown raw)).1 = .ok .Handled
    ∧ (∀ (t₂ : Target) (st₂ : GdbStubImpl) (raw₂ : List Byte),
        t₂.useResumeStub = false ∨ t₂.supportResumeOps = true ∨
          (raw₂.head?.map isResumePrefix).getD false = false →
        handle_command (E := E) t₂ st₂ (.Unknown raw₂) =
          (.ok .Handled, [], [], st₂)) := by
  have hcmd : handle_command (E := E) target st (.Unknown raw) =
      (.ok .Handled, strBytes "S05",
        [.frame (strBytes "O" ++ write_hex_buf resumeStubMsg)], st) := by
    simp [handle_command, hres, hstub, hpkt]
  refine ⟨?_, by rw [hcmd], ?_⟩
  · simp [handle_packet, hcmd, finishResponse, ackEvents, hack]
  · intro t₂ st₂ raw₂ h₂
    rcases h₂ with h₂ | h₂ | h₂
    · simp [handle_command, h₂]
    · simp [handle_command, h₂]
    · simp only [handle_command, h₂]
      split_ifs <;> simp_all

theorem C5_witness :
    handle_packet (E := Unit) ⟨true, false, true⟩ GdbStubImpl.new
        (.Command (.Unknown (strBytes "c"))) =
      (.ok .Pump, GdbStubImpl.new,
        [.ack, .frame (strBytes "O" ++ write_hex_buf resumeStubMsg),
          .frame (strBytes "S05")]) :=
  (C5_unknown_resume_stub ⟨true, false, true⟩ GdbStubImpl.new
    (strBytes "c") rfl rfl rfl rfl).1

/-- C6 (counterexample): the claim says the translation of `Io(e)` equals
`e`'s OS error code whenever one is available, but at the concrete input
`Io(raw_os_error = 300)` the Rust `as u8` cast truncates: the produced
protocol code is 44 (= 300 mod 256), not 300. -/
theorem C6_counterexample :
    handle_error (E := Unit) (V := Unit) (.error (.Io (some 300))) =
      .error (.NonFatalError 44) ∧ (44 : Nat) ≠ 300 :=
  ⟨rfl, by decide⟩

/-- C6 (amended): the translation of `Io(e)` is `e`'s OS error code when one
is available and it already lies in [0,255]; 121 when none is available; in
general the available code is truncated to its low 8 bits (`as u8`, i.e.
reduced mod 256), so the produced protocol code always lies in [0,255] as the
`"E"` + two-hex-digit format requires. -/
theorem C6_io_error_translation {E V : Type} (o : Option Int) (n : Int)
    (h0 : 0 ≤ n) (h256 : n < 256) :
    (handle_error (E := E) (V := V) (.error (.Io (some n))) =
      .error (.NonFatalError n.toNat))
    ∧ (handle_error (E := E) (V := V) (.error (.Io none)) =
        .error (.NonFatalError 121))
    ∧ (handle_error (E := E) (V := V) (.error (.Io o)) =
        .error (.NonFatalError ((o.getD 121) % 256).toNat))
    ∧ ((o.getD 121) % 256).toNat < 256 := by
  refine ⟨?_, rfl, rfl, ?_⟩
  · simp [handle_error, Int.emod_eq_of_lt h0 h256]
  · have h1 : 0 ≤ (o.getD 121) % 256 := Int.emod_nonneg _ (by decide)
    have h2 : (o.getD 121) % 256 < 256 := Int.emod_lt_of_pos _ (by decide)
    omega

theorem C6_witness :
    (handle_error (E := Unit) (V := Unit) (.error (.Io (some 14))) =
      .error (.NonFatalError (14 : Int).toNat))
    ∧ (handle_error (E := Unit) (V := Unit) (.error (.Io none)) =
        .error (.NonFatalError 121))
    ∧ (handle_error (E := Unit) (V := Unit) (.error (.Io (some 14))) =
        .error (.NonFatalError (((some (14 : Int)).getD 121) % 256).toNat))
    ∧ (((some (14 : Int)).getD 121) % 256).toNat < 256 :=
  C6_io_error_translation (some 14) 14 (by decide) (by decide)
